import Mathlib

set_option maxRecDepth 16000
set_option maxHeartbeats 1000000

/-!
Shallow embedding of the deterministic code-metrics subsystem
(cyclomatic/cognitive complexity, Halstead metrics, maintainability index,
duplication detection, technical-debt estimate) of the analyzed repository.
JavaScript numbers are modelled by rationals, with `Option` marking the
NaN value where the source can actually produce one, and by reals where a
formula involves a logarithm.  JavaScript strings are modelled by `String`
and, inside the scanners, by `List Char`.
-/

/-- JavaScript `Math.round` on rationals: round half toward positive infinity. -/
def jsRound (q : ℚ) : ℤ := ⌊q + 1/2⌋

/-- JavaScript `Math.round(x * 100) / 100`: round to two decimal places. -/
def jsRound2 (q : ℚ) : ℚ := (jsRound (q * 100) : ℚ) / 100

/-- JavaScript `Math.round` on reals (used by the formulas involving logarithms). -/
noncomputable def jsRoundR (x : ℝ) : ℤ := ⌊x + 1/2⌋

/-- JavaScript `Math.round(x * 100) / 100` on reals. -/
noncomputable def jsRound2R (x : ℝ) : ℚ := ((⌊x * 100 + 1/2⌋ : ℤ) : ℚ) / 100

/-- The whitespace characters relevant to `String.prototype.trim` here. -/
def isWS (c : Char) : Bool :=
  c = ' ' || c = '\t' || c = '\n' || c = '\r' || c = Char.ofNat 11 || c = Char.ofNat 12

/-- JavaScript `line.trim()` on a list of characters. -/
def jsTrim (cs : List Char) : List Char :=
  ((cs.dropWhile isWS).reverse.dropWhile isWS).reverse

/-- JavaScript `code.split("\n")`; on the empty string it yields `[""]`. -/
def splitNL : List Char → List (List Char)
  | [] => [[]]
  | c :: rest =>
    if c = '\n' then [] :: splitNL rest
    else
      match splitNL rest with
      | [] => [[c]]
      | l :: ls => (c :: l) :: ls

/-- Does the line start with the two given characters? -/
def startsWith2 (a b : Char) : List Char → Bool
  | x :: y :: _ => x = a && y = b
  | _ => false

/-- Does the line start with the given character? -/
def startsWith1 (a : Char) : List Char → Bool
  | x :: _ => x = a
  | _ => false

/-- The `codeLines` filter of `calculateAllMetrics`: trimmed line is non-empty and
starts neither with `//` nor with `/*`. -/
def isCodeLine (line : List Char) : Bool :=
  let t := jsTrim line
  decide (0 < t.length) && !(startsWith2 '/' '/' t) && !(startsWith2 '/' '*' t)

/-- The `commentLines` filter of `calculateAllMetrics`: trimmed line starts with
`//`, `/*` or `*`. -/
def isCommentLine (line : List Char) : Bool :=
  let t := jsTrim line
  startsWith2 '/' '/' t || startsWith2 '/' '*' t || startsWith1 '*' t

/-- One duplicate block recorded by `detectDuplication` (1-based line ranges). -/
structure DupBlock where
  lines1 : ℕ × ℕ
  lines2 : ℕ × ℕ
  length : ℕ
deriving DecidableEq

/-- The value returned by `detectDuplication`.  `duplicationPercentage` is `none`
exactly when the source computes `0/0 = NaN` (no non-blank lines). -/
structure DuplicationReport where
  duplicates : List DupBlock
  totalDuplicatedLines : ℕ
  duplicationPercentage : Option ℚ
deriving DecidableEq

/-- The trimmed non-blank lines `detectDuplication` works on. -/
def dupLines (code : String) : List (List Char) :=
  ((splitNL code.data).map jsTrim).filter (fun l => decide (0 < l.length))

/-- The inner `while` of `detectDuplication`, written with explicit fuel so it
evaluates by kernel reduction; `L.length - j` steps always suffice because the
loop condition fails as soon as `j + k` reaches `L.length` (and `i < j`). -/
def matchLenF (L : List (List Char)) : ℕ → ℕ → ℕ → ℕ
  | 0, _, _ => 0
  | fuel+1, i, j =>
    if i < L.length ∧ j < L.length ∧ L.getD i [] = L.getD j [] then
      matchLenF L fuel (i+1) (j+1) + 1
    else 0

/-- Match length of the runs starting at indices `i` and `j`. -/
def matchLen (L : List (List Char)) (i j : ℕ) : ℕ := matchLenF L (L.length - j) i j

/-- `detectDuplication` from the metrics calculator: brute-force comparison of
every pair of start indices `i < j` with `j ≥ i+3`, recording blocks of at
least 3 equal consecutive trimmed lines. -/
def detectDuplication (code : String) : DuplicationReport :=
  let lines := dupLines code
  let minLength := 3
  let duplicates :=
    (List.range (lines.length - minLength)).flatMap (fun i =>
      (List.range' (i + minLength) (lines.length - (i + minLength))).filterMap (fun j =>
        let k := matchLen lines i j
        if minLength ≤ k then
          some { lines1 := (i + 1, i + k), lines2 := (j + 1, j + k), length := k }
        else none))
  let total := (duplicates.map (fun d => d.length)).sum
  { duplicates := duplicates
    totalDuplicatedLines := total
    duplicationPercentage :=
      if lines.length = 0 then none
      else some (jsRound2 (((total : ℚ) / (lines.length : ℚ)) * 100)) }

/-- A vulnerability as consumed by `calculateTechnicalDebt` (only `severity` is read). -/
structure Vulnerability where
  severity : String

/-- A code smell as consumed by `calculateTechnicalDebt` (only `severity` is read). -/
structure CodeSmell where
  severity : String

/-- The three properties `calculateTechnicalDebt` reads off its `metrics` argument.
`duplicationPercentage` is an `Option` because the record `calculateAllMetrics`
passes does not carry that property (it nests the value under
`duplication.percentage`), so the JavaScript property access yields `undefined`. -/
structure TDMetrics where
  cyclomaticComplexity : ℚ
  duplicationPercentage : Option ℚ
  maintainabilityIndex : ℚ

/-- The property names every plain object literal inherits from
`Object.prototype`.  A bracket lookup `weights[s]` with one of these names
returns the inherited member (a function, or `Object.prototype` itself for
`__proto__`): a truthy non-number, so the `||` fallback does not apply and
`debtHours +=` turns the accumulator into a non-number. -/
def objectPrototypeKeys : List String :=
  ["constructor", "hasOwnProperty", "isPrototypeOf", "propertyIsEnumerable",
   "toLocaleString", "toString", "valueOf", "__defineGetter__", "__defineSetter__",
   "__lookupGetter__", "__lookupSetter__", "__proto__"]

/-- `vulnerabilityWeights[severity] || 1`: an own key yields its numeric weight
(every table value is truthy); an `Object.prototype` member name yields the
inherited truthy non-number, modelled `none`; any other name yields
`undefined`, so the fallback 1 applies. -/
def vulnerabilityWeight (s : String) : Option ℚ :=
  if s = "Critical" then some 4
  else if s = "High" then some 2
  else if s = "Medium" then some 1
  else if s = "Low" then some (1/2)
  else if s ∈ objectPrototypeKeys then none
  else some 1

/-- `smellWeights[severity] || 0.5`, with the same `Object.prototype` caveat. -/
def smellWeight (s : String) : Option ℚ :=
  if s = "High" then some 1
  else if s = "Medium" then some (1/2)
  else if s = "Low" then some (1/4)
  else if s ∈ objectPrototypeKeys then none
  else some (1/2)

/-- The `debtHours += w` accumulation over the looked-up weights: the first
non-numeric value turns the accumulator into a string for good (every later
`+=` is string concatenation), and the final `Math.round(debtHours*100)/100`
of the source then yields NaN, modelled `none`. -/
def sumWeights : List (Option ℚ) → Option ℚ
  | [] => some 0
  | none :: _ => none
  | some a :: ws =>
    match sumWeights ws with
    | some b => some (a + b)
    | none => none

/-- `calculateTechnicalDebt` from the metrics calculator.  In the `none` case of
`duplicationPercentage` the source evaluates `undefined > 10`, which is false,
so no duplication debt accrues.  The result is `none` (NaN) exactly when some
severity names an `Object.prototype` member. -/
def calculateTechnicalDebt (metrics : TDMetrics) (vulnerabilities : List Vulnerability)
    (codeSmells : List CodeSmell) : Option ℚ :=
  let complexityDebt :=
    if 20 < metrics.cyclomaticComplexity then (metrics.cyclomaticComplexity - 20) * (1/2) else 0
  let duplicationDebt :=
    match metrics.duplicationPercentage with
    | some dp => if 10 < dp then (dp - 10) * (3/10) else 0
    | none => 0
  let maintainabilityDebt :=
    if metrics.maintainabilityIndex < 50 then (50 - metrics.maintainabilityIndex) * (1/5) else 0
  match sumWeights (vulnerabilities.map (fun v => vulnerabilityWeight v.severity)),
        sumWeights (codeSmells.map (fun s => smellWeight s.severity)) with
  | some securityDebt, some smellDebt =>
    some (jsRound2 (complexityDebt + duplicationDebt + maintainabilityDebt +
      securityDebt + smellDebt))
  | _, _ => none

/-- JavaScript `a <= b` on numbers that may be NaN: false whenever either side
is NaN (`none`). -/
def jsNumLe : Option ℚ → Option ℚ → Prop
  | some a, some b => a ≤ b
  | _, _ => False

/-- A syntax-tree node as the duck-typed traversals see it: a JSON-like value
with a `type` discriminator field and arbitrary child fields. -/
inductive Js where
  | null
  | bool (b : Bool)
  | num (q : ℚ)
  | str (s : String)
  | arr (elems : List Js)
  | obj (fields : List (String × Js))

/-- `node.type` when it is a string (only strings can match the node-kind lists). -/
def nodeTypeStr (fields : List (String × Js)) : Option String :=
  match fields.lookup "type" with
  | some (Js.str s) => some s
  | _ => none

/-- The decision-point node kinds of `calculateCyclomaticComplexity`. -/
def decisionNodes : List String :=
  ["IfStatement", "ConditionalExpression", "SwitchCase", "ForStatement",
   "ForInStatement", "ForOfStatement", "WhileStatement", "DoWhileStatement",
   "CatchClause", "LogicalExpression"]

/-- Both traversals skip the `loc` and `type` fields when recursing. -/
def skippedKey (k : String) : Bool := k = "loc" || k = "type"

/-- Number of decision points reached by the generic traversal of
`calculateCyclomaticComplexity`: objects are checked against `decisionNodes`
and recursed into field-wise (skipping `loc`/`type`), arrays element-wise,
primitives are leaves.  Fuel-indexed so it reduces in the kernel; `sizeOf t`
fuel always suffices since every recursive step descends strictly. -/
def cycCount : ℕ → Js → ℕ
  | 0, _ => 0
  | fuel+1, Js.arr elems => (elems.map (cycCount fuel)).sum
  | fuel+1, Js.obj fields =>
    (match nodeTypeStr fields with
     | some t => if decisionNodes.contains t then 1 else 0
     | none => 0) +
    (fields.map (fun kv => if skippedKey kv.1 then 0 else cycCount fuel kv.2)).sum
  | _+1, _ => 0

/-- `calculateCyclomaticComplexity`: base complexity 1 plus one per decision node.
(`noncomputable` only because the derived `sizeOf` of a nested inductive has no
compiled code; the kernel still evaluates it, so `decide` works.) -/
noncomputable def calculateCyclomaticComplexity (ast : Js) : ℕ := 1 + cycCount (sizeOf ast) ast

/-- The nesting-increasing node kinds of `calculateCognitiveComplexity`. -/
def nestingNodes : List String :=
  ["IfStatement", "ForStatement", "ForInStatement", "ForOfStatement",
   "WhileStatement", "DoWhileStatement", "SwitchStatement", "CatchClause"]

/-- `calculateCognitiveComplexity`'s traversal: entering a nesting node
increments the nesting level and adds the post-increment level; logical
expressions add a flat 1; the level is restored on exit (here by passing the
incremented level only to the children). -/
def cogCount : ℕ → ℕ → Js → ℕ
  | 0, _, _ => 0
  | fuel+1, nesting, Js.arr elems => (elems.map (cogCount fuel nesting)).sum
  | fuel+1, nesting, Js.obj fields =>
    let t := nodeTypeStr fields
    let wasNesting := match t with
      | some s => nestingNodes.contains s
      | none => false
    let nestingAfter := if wasNesting then nesting + 1 else nesting
    (if wasNesting then nestingAfter else 0) +
    (if t = some "LogicalExpression" then 1 else 0) +
    (fields.map (fun kv => if skippedKey kv.1 then 0 else cogCount fuel nestingAfter kv.2)).sum
  | _+1, _, _ => 0

/-- `calculateCognitiveComplexity`: traversal started at nesting level 0. -/
noncomputable def calculateCognitiveComplexity (ast : Js) : ℕ := cogCount (sizeOf ast) 0 ast

/-- `a` is a prefix of `cs` (literal regex-alternative matching). -/
def isPrefixList : List Char → List Char → Bool
  | [], _ => true
  | _ :: _, [] => false
  | a :: as, c :: cs => a = c && isPrefixList as cs

/-- Scan a text for all matches of a fixed alternation of literals, leftmost
first, earlier alternatives preferred (which encodes the greedy `?` by listing
the longer alternative first). -/
def scanLits (alts : List (List Char)) : ℕ → List Char → List (List Char)
  | 0, _ => []
  | _+1, [] => []
  | fuel+1, c :: rest =>
    match alts.find? (fun a => isPrefixList a (c :: rest)) with
    | some a => a :: scanLits alts fuel (rest.drop (a.length - 1))
    | none => scanLits alts fuel rest

/-- The eleven operator patterns of `calculateHalsteadMetrics`, each written as
an ordered list of literal alternatives equivalent to the source regex. -/
def operatorPatterns : List (List (List Char)) :=
  ([ ["++", "--"],
     ["+", "-", "*", "/", "%"],
     ["<=", "<", ">=", ">", "!==", "!=", "===", "=="],
     ["&&", "||"],
     ["&", "|", "^", "~"],
     ["==", "=", "!=", "!"],
     ["?", ":"],
     ["."],
     ["[", "]"],
     ["(", ")"],
     ["\x7b", "\x7d", ";", ","] ] : List (List String)).map (fun p => p.map String.data)

/-- All operator matches, pattern by pattern (this is the multiset the source
feeds into `operators.add` and `totalOperators++`). -/
def allOperatorMatches (code : String) : List (List Char) :=
  operatorPatterns.flatMap (fun pat => scanLits pat code.data.length code.data)

/-- Word characters in the sense of the regex `\b` assertion: `[A-Za-z0-9_]`. -/
def isWordC (c : Char) : Bool := c.isAlphanum || c = '_'

/-- First character of the identifier pattern: `[a-zA-Z_$]`. -/
def isIdentStartC (c : Char) : Bool := c.isAlpha || c = '_' || c = '$'

/-- Continuation character of the identifier pattern: `[a-zA-Z0-9_$]`. -/
def isIdentC (c : Char) : Bool := c.isAlphanum || c = '_' || c = '$'

/-- The `\b` assertion before character `c` given the previous character. -/
def boundaryOK (prev : Option Char) (c : Char) : Bool :=
  if isWordC c then
    match prev with
    | none => true
    | some p => !isWordC p
  else
    match prev with
    | none => false
    | some p => isWordC p

/-- Drop trailing non-word characters (only `$` can occur there in an
identifier run); this is the backtracking the trailing `\b` forces. -/
def trimNonWordTail (cs : List Char) : List Char :=
  ((cs.reverse).dropWhile (fun c => !isWordC c)).reverse

/-- All matches of `/\b[a-zA-Z_$][a-zA-Z0-9_$]*\b/g`:  at a boundary take the
greedy run of identifier characters, then backtrack trailing `$`s so the match
ends at a word character; on failure advance one position. -/
def scanIdents : ℕ → Option Char → List Char → List (List Char)
  | 0, _, _ => []
  | _+1, _, [] => []
  | fuel+1, prev, c :: rest =>
    if isIdentStartC c && boundaryOK prev c then
      let run := c :: rest.takeWhile isIdentC
      match trimNonWordTail run with
      | [] => scanIdents fuel (some c) rest
      | t :: ts =>
        (t :: ts) :: scanIdents fuel (some ((t :: ts).getLastD c)) (rest.drop ((t :: ts).length - 1))
    else scanIdents fuel (some c) rest

/-- All matches of `/\b\d+\.?\d*\b/g`, with the backtracking the trailing `\b`
forces: a match ends either at a digit followed by a non-word position or at
the dot when a word character follows it. -/
def scanNumbers : ℕ → Option Char → List Char → List (List Char)
  | 0, _, _ => []
  | _+1, _, [] => []
  | fuel+1, prev, c :: rest =>
    if c.isDigit && boundaryOK prev c then
      let ds := c :: rest.takeWhile Char.isDigit
      let rest1 := rest.drop (ds.length - 1)
      if rest1.head? = some '.' then
        let rest2 := rest1.tail
        let frac := rest2.takeWhile Char.isDigit
        let rest3 := rest2.drop frac.length
        if frac.isEmpty then
          if rest2.head?.any isWordC then
            let tok := ds ++ ['.']
            tok :: scanNumbers fuel (some '.') (rest.drop (tok.length - 1))
          else
            ds :: scanNumbers fuel (some (ds.getLastD c)) rest1
        else
          if rest3.head?.all (fun x => !isWordC x) then
            let tok := ds ++ '.' :: frac
            tok :: scanNumbers fuel (some (tok.getLastD c)) (rest.drop (tok.length - 1))
          else
            let tok := ds ++ ['.']
            tok :: scanNumbers fuel (some '.') (rest.drop (tok.length - 1))
      else
        if rest1.head?.all (fun x => !isWordC x) then
          ds :: scanNumbers fuel (some (ds.getLastD c)) rest1
        else
          scanNumbers fuel (some c) rest
    else scanNumbers fuel (some c) rest

/-- Is the character one of the three quote characters of the string pattern? -/
def quoteChar (c : Char) : Bool := c = Char.ofNat 39 || c = Char.ofNat 34 || c = Char.ofNat 96

/-- Split at the first quote character, if any. -/
def splitAtQuote : List Char → Option (List Char × Char × List Char)
  | [] => none
  | c :: rest =>
    if quoteChar c then some ([], c, rest)
    else
      match splitAtQuote rest with
      | some (mid, q, r) => some (c :: mid, q, r)
      | none => none

/-- All matches of the quoted-string pattern: a quote, the run up to the next
quote character (of any of the three kinds), and that closing quote. -/
def scanStrings : ℕ → List Char → List (List Char)
  | 0, _ => []
  | _+1, [] => []
  | fuel+1, c :: rest =>
    if quoteChar c then
      match splitAtQuote rest with
      | some (mid, q, r) => (c :: mid ++ [q]) :: scanStrings fuel r
      | none => scanStrings fuel rest
    else scanStrings fuel rest

/-- The reserved words filtered out of the operand candidates. -/
def halsteadKeywords : List (List Char) :=
  (["if", "else", "for", "while", "do", "switch", "case", "break", "continue",
    "return", "function", "const", "let", "var", "class",
    "export"] : List String).map String.data ++ [['i','m','p','o','r','t']]

/-- All operand matches: identifiers, then numeric literals, then quoted
strings, with the keyword filter applied to each match as in the source. -/
def allOperandMatches (code : String) : List (List Char) :=
  (scanIdents code.data.length none code.data ++
   scanNumbers code.data.length none code.data ++
   scanStrings code.data.length code.data).filter
    (fun operand => !(halsteadKeywords.contains operand))

/-- The record returned by `calculateHalsteadMetrics` (floating-point values
rounded exactly as in the source; `volume`, `effort`, `timeToProgram` involve
`log2` and are modelled over the reals). -/
structure HalsteadMetrics where
  n1 : ℕ
  n2 : ℕ
  N1 : ℕ
  N2 : ℕ
  vocabulary : ℕ
  length : ℕ
  volume : ℤ
  difficulty : ℚ
  effort : ℤ
  timeToProgram : ℤ
  estimatedBugs : ℚ

/-- `calculateHalsteadMetrics`: counts of distinct/total operators and operands
and the derived measures, with the `|| 1` clamps of the source. -/
noncomputable def calculateHalsteadMetrics (code : String) : HalsteadMetrics :=
  let opMatches := allOperatorMatches code
  let operandMatches := allOperandMatches code
  let n1 := opMatches.eraseDups.length
  let n2 := operandMatches.eraseDups.length
  let N1 := opMatches.length
  let N2 := operandMatches.length
  let n := n1 + n2
  let N := N1 + N2
  let volume : ℝ := (N : ℝ) * Real.logb 2 (((if n = 0 then 1 else n) : ℕ) : ℝ)
  let difficulty : ℚ := ((n1 : ℚ) / 2) * ((N2 : ℚ) / (((if n2 = 0 then 1 else n2) : ℕ) : ℚ))
  let effort : ℝ := (difficulty : ℝ) * volume
  { n1 := n1, n2 := n2, N1 := N1, N2 := N2, vocabulary := n, length := N
    volume := jsRoundR volume
    difficulty := jsRound2 difficulty
    effort := jsRoundR effort
    timeToProgram := jsRoundR (effort / 18)
    estimatedBugs := jsRound2R (volume / 3000) }

/-- `calculateMaintainabilityIndex`: `171 − 5.2·ln(HV) − 0.23·CC − 16.2·ln(LOC)`
with each input replaced by 1 when it is 0 (the `|| 1` of the source), clamped
to [0,100] and rounded. -/
noncomputable def calculateMaintainabilityIndex
    (cyclomaticComplexity halsteadVolume linesOfCode : ℤ) : ℤ :=
  let HV : ℤ := if halsteadVolume = 0 then 1 else halsteadVolume
  let CC : ℤ := if cyclomaticComplexity = 0 then 1 else cyclomaticComplexity
  let LOC : ℤ := if linesOfCode = 0 then 1 else linesOfCode
  let MI : ℝ := 171 - 5.2 * Real.log (HV : ℝ) - 0.23 * (CC : ℝ) - 16.2 * Real.log (LOC : ℝ)
  jsRoundR (max 0 (min 100 MI))

/-- The nested `duplication` summary of the metrics record. -/
structure DuplicationSummary where
  percentage : Option ℚ
  instances : ℕ
  totalLines : ℕ

/-- The metrics record built by `calculateAllMetrics`.  `blankLines` is an
integer because the source's subtraction can go negative; `qualityScore` is an
`Option` because the NaN duplication percentage of a file with no non-blank
lines propagates into it. -/
structure MetricsRecord where
  linesOfCode : ℕ
  codeLines : ℕ
  commentLines : ℕ
  blankLines : ℤ
  commentRatio : ℚ
  cyclomaticComplexity : ℕ
  cognitiveComplexity : ℕ
  maintainabilityIndex : ℤ
  halstead : HalsteadMetrics
  duplication : DuplicationSummary
  technicalDebt : Option ℚ
  qualityScore : Option ℤ

/-- `calculateAllMetrics`.  The `language` parameter is accepted and unused, as
in the source.  Note the record handed to `calculateTechnicalDebt`: the metrics
object stores the duplication percentage at `duplication.percentage`, so the
`duplicationPercentage` property that `calculateTechnicalDebt` reads is the
JavaScript `undefined`, modelled by `none`. -/
noncomputable def calculateAllMetrics (code : String) (ast : Option Js) (language : String)
    (vulnerabilities : List Vulnerability) (codeSmells : List CodeSmell) : MetricsRecord :=
  let lines := splitNL code.data
  let codeLines := lines.filter isCodeLine
  let commentLines := lines.filter isCommentLine
  let cyclomaticComplexity : ℕ :=
    match ast with
    | some t => calculateCyclomaticComplexity t
    | none => 1
  let halstead := calculateHalsteadMetrics code
  let cognitiveComplexity : ℕ :=
    match ast with
    | some t => calculateCognitiveComplexity t
    | none => 0
  let duplication := detectDuplication code
  let maintainabilityIndex :=
    calculateMaintainabilityIndex (cyclomaticComplexity : ℤ) halstead.volume (codeLines.length : ℤ)
  let commentRatio : ℚ :=
    ((jsRound (((commentLines.length : ℚ) /
        (((if codeLines.length = 0 then 1 else codeLines.length) : ℕ) : ℚ)) * 10000) : ℤ) : ℚ) / 100
  let technicalDebt :=
    calculateTechnicalDebt
      { cyclomaticComplexity := (cyclomaticComplexity : ℚ)
        duplicationPercentage := none
        maintainabilityIndex := (maintainabilityIndex : ℚ) }
      vulnerabilities codeSmells
  let qualityScore : Option ℤ :=
    match duplication.duplicationPercentage with
    | none => none
    | some dp =>
      some (max 0 (min 100 (jsRound ((maintainabilityIndex : ℚ) * (2/5) +
        (max 0 (100 - (cyclomaticComplexity : ℚ) * 2)) * (1/5) +
        (max 0 (100 - dp * 2)) * (1/5) + commentRatio * (1/5)))))
  { linesOfCode := lines.length
    codeLines := codeLines.length
    commentLines := commentLines.length
    blankLines := (lines.length : ℤ) - (codeLines.length : ℤ) - (commentLines.length : ℤ)
    commentRatio := commentRatio
    cyclomaticComplexity := cyclomaticComplexity
    cognitiveComplexity := cognitiveComplexity
    maintainabilityIndex := maintainabilityIndex
    halstead := halstead
    duplication := { percentage := duplication.duplicationPercentage
                     instances := duplication.duplicates.length
                     totalLines := duplication.totalDuplicatedLines }
    technicalDebt := technicalDebt
    qualityScore := qualityScore }

/-- Seven identical non-blank lines: the input of several concrete scenarios. -/
def code7 : String := "a\na\na\na\na\na\na"

/-- Two identical 10-line blocks separated by one unique line. -/
def code3 : String :=
  "q1\nq2\nq3\nq4\nq5\nq6\nq7\nq8\nq9\nq10\nzz\nq1\nq2\nq3\nq4\nq5\nq6\nq7\nq8\nq9\nq10"

/-- An `Identifier` node. -/
def identJ (nm : String) : Js := Js.obj [("type", Js.str "Identifier"), ("name", Js.str nm)]

/-- An `IfStatement` node with no `alternate`. -/
def ifStmt (test consequent : Js) : Js :=
  Js.obj [("type", Js.str "IfStatement"), ("test", test),
          ("consequent", consequent), ("alternate", Js.null)]

/-- A `BlockStatement` node. -/
def blockJ (body : List Js) : Js := Js.obj [("type", Js.str "BlockStatement"), ("body", Js.arr body)]

/-- Five nested `if` statements and no logical-expression nodes. -/
def nestedIfs5 : Js :=
  ifStmt (identJ "a") (blockJ [ifStmt (identJ "b") (blockJ [ifStmt (identJ "c")
    (blockJ [ifStmt (identJ "d") (blockJ [ifStmt (identJ "e") (blockJ [])])])])])

theorem jsRound_nonneg {q : ℚ} (h : 0 ≤ q) : 0 ≤ jsRound q := by
  unfold jsRound
  exact Int.le_floor.mpr (by push_cast; linarith)

theorem jsRound2_nonneg {q : ℚ} (h : 0 ≤ q) : 0 ≤ jsRound2 q := by
  unfold jsRound2
  have h1 : 0 ≤ jsRound (q * 100) := jsRound_nonneg (by positivity)
  have h2 : (0:ℚ) ≤ (jsRound (q * 100) : ℚ) := by exact_mod_cast h1
  positivity

theorem jsRound_le_jsRound {a b : ℚ} (h : a ≤ b) : jsRound a ≤ jsRound b := by
  unfold jsRound
  exact Int.floor_le_floor (by linarith)

theorem jsRound2_le_jsRound2 {a b : ℚ} (h : a ≤ b) : jsRound2 a ≤ jsRound2 b := by
  unfold jsRound2
  have h1 : jsRound (a * 100) ≤ jsRound (b * 100) := jsRound_le_jsRound (by linarith)
  have h2 : ((jsRound (a * 100) : ℤ) : ℚ) ≤ ((jsRound (b * 100) : ℤ) : ℚ) := by exact_mod_cast h1
  linarith

theorem jsRound2_add_one (x : ℚ) : jsRound2 (x + 1) = jsRound2 x + 1 := by
  unfold jsRound2 jsRound
  rw [show (x + 1) * 100 + 1/2 = (x * 100 + 1/2) + ((100:ℤ):ℚ) from by push_cast; ring,
      Int.floor_add_int]
  push_cast
  ring

theorem jsRound2_add_half (x : ℚ) : jsRound2 (x + 1/2) = jsRound2 x + 1/2 := by
  unfold jsRound2 jsRound
  rw [show (x + 1/2) * 100 + 1/2 = (x * 100 + 1/2) + ((50:ℤ):ℚ) from by push_cast; ring,
      Int.floor_add_int]
  push_cast
  ring

theorem jsRound2_zero : jsRound2 0 = 0 := by
  unfold jsRound2 jsRound
  rw [show (0:ℚ) * 100 + 1/2 = 1/2 from by norm_num]
  rw [show ⌊(1/2 : ℚ)⌋ = 0 from by
    rw [Int.floor_eq_iff] <;> norm_num]
  norm_num

theorem jsRoundR_zero : jsRoundR 0 = 0 := by
  unfold jsRoundR
  rw [show (0:ℝ) + 1/2 = 1/2 from by norm_num]
  rw [Int.floor_eq_iff] <;> norm_num

theorem jsRoundR_clamp_nonneg (x : ℝ) : 0 ≤ jsRoundR (max 0 (min 100 x)) := by
  unfold jsRoundR
  have h0 : (0:ℝ) ≤ max 0 (min 100 x) := le_max_left _ _
  exact Int.le_floor.mpr (by push_cast; linarith)

theorem jsRoundR_clamp_le (x : ℝ) : jsRoundR (max 0 (min 100 x)) ≤ 100 := by
  unfold jsRoundR
  have h100 : max (0:ℝ) (min 100 x) ≤ 100 := max_le (by norm_num) (min_le_left _ _)
  have h := Int.floor_lt.mpr (show max (0:ℝ) (min 100 x) + 1/2 < ((101:ℤ):ℝ) by push_cast; linarith)
  omega

theorem vulnerabilityWeight_clean (s : String) (h : s ∉ objectPrototypeKeys) :
    ∃ w, vulnerabilityWeight s = some w ∧ (1/2 : ℚ) ≤ w := by
  by_cases h1 : s = "Critical"
  · exact ⟨4, by simp [vulnerabilityWeight, h1], by norm_num⟩
  by_cases h2 : s = "High"
  · exact ⟨2, by simp [vulnerabilityWeight, h1, h2], by norm_num⟩
  by_cases h3 : s = "Medium"
  · exact ⟨1, by simp [vulnerabilityWeight, h1, h2, h3], by norm_num⟩
  by_cases h4 : s = "Low"
  · exact ⟨1/2, by simp [vulnerabilityWeight, h1, h2, h3, h4], by norm_num⟩
  · exact ⟨1, by simp [vulnerabilityWeight, h1, h2, h3, h4, h], by norm_num⟩

theorem smellWeight_clean (s : String) (h : s ∉ objectPrototypeKeys) :
    ∃ w, smellWeight s = some w ∧ (1/4 : ℚ) ≤ w := by
  by_cases h1 : s = "High"
  · exact ⟨1, by simp [smellWeight, h1], by norm_num⟩
  by_cases h2 : s = "Medium"
  · exact ⟨1/2, by simp [smellWeight, h1, h2], by norm_num⟩
  by_cases h3 : s = "Low"
  · exact ⟨1/4, by simp [smellWeight, h1, h2, h3], by norm_num⟩
  · exact ⟨1/2, by simp [smellWeight, h1, h2, h3, h], by norm_num⟩

theorem sumWeights_vuln_clean (vulns : List Vulnerability)
    (h : ∀ w ∈ vulns, w.severity ∉ objectPrototypeKeys) :
    ∃ q, sumWeights (vulns.map (fun v => vulnerabilityWeight v.severity)) = some q ∧ 0 ≤ q := by
  induction vulns with
  | nil => exact ⟨0, rfl, le_refl 0⟩
  | cons v vs ih =>
    obtain ⟨q, hq, hq0⟩ := ih (fun w hw => h w (List.mem_cons_of_mem _ hw))
    obtain ⟨w, hw, hw0⟩ := vulnerabilityWeight_clean v.severity (h v (List.mem_cons_self _ _))
    refine ⟨w + q, ?_, by linarith⟩
    simp only [List.map_cons, sumWeights, hq, hw]

theorem sumWeights_smell_clean (smells : List CodeSmell)
    (h : ∀ w ∈ smells, w.severity ∉ objectPrototypeKeys) :
    ∃ q, sumWeights (smells.map (fun s => smellWeight s.severity)) = some q ∧ 0 ≤ q := by
  induction smells with
  | nil => exact ⟨0, rfl, le_refl 0⟩
  | cons s ss ih =>
    obtain ⟨q, hq, hq0⟩ := ih (fun w hw => h w (List.mem_cons_of_mem _ hw))
    obtain ⟨w, hw, hw0⟩ := smellWeight_clean s.severity (h s (List.mem_cons_self _ _))
    refine ⟨w + q, ?_, by linarith⟩
    simp only [List.map_cons, sumWeights, hq, hw]

/-- Helper shared by several claims: with at least one non-blank line, the
percentage is the rounded ratio (no clamping happens in the source). -/
theorem detectDuplication_percentage (code : String) (h : (dupLines code).length ≠ 0) :
    (detectDuplication code).duplicationPercentage =
      some (jsRound2 ((((detectDuplication code).totalDuplicatedLines : ℚ) /
        ((dupLines code).length : ℚ)) * 100)) := by
  simp only [detectDuplication]
  rw [if_neg h]

/-- Helper shared by C8 and the degenerate-input scenarios: no operator and no
operand matches force volume 0 and difficulty 0. -/
theorem halsteadDegenerate (code : String)
    (hop : allOperatorMatches code = []) (hod : allOperandMatches code = []) :
    (calculateHalsteadMetrics code).volume = 0 ∧ (calculateHalsteadMetrics code).difficulty = 0 := by
  constructor
  · simp only [calculateHalsteadMetrics, hop, hod]
    norm_num [jsRoundR_zero]
  · simp only [calculateHalsteadMetrics, hop, hod]
    norm_num [jsRound2_zero]

/-- C5: for five nested if-statements (and no logical expressions),
cognitive complexity is 1+2+3+4+5 = 15 and cyclomatic complexity is 6. -/
theorem claim5_nested_ifs :
    calculateCognitiveComplexity nestedIfs5 = 15 ∧ calculateCyclomaticComplexity nestedIfs5 = 6 :=
  ⟨by decide, by decide⟩

/-- C8: `calculateHalsteadMetrics` is total by construction, and when no
operator token and no operand token is matched it returns volume 0 and
difficulty 0 (clamped log-argument and clamped distinct-operand denominator). -/
theorem claim8_halstead_degenerate (code : String)
    (hop : allOperatorMatches code = []) (hod : allOperandMatches code = []) :
    (calculateHalsteadMetrics code).volume = 0 ∧ (calculateHalsteadMetrics code).difficulty = 0 :=
  halsteadDegenerate code hop hod

/-- Witness for C8 at the empty string. -/
theorem claim8_witness :
    allOperatorMatches "" = [] ∧ allOperandMatches "" = [] ∧
    (calculateHalsteadMetrics "").volume = 0 ∧ (calculateHalsteadMetrics "").difficulty = 0 := by
  have h := claim8_halstead_degenerate "" (by decide) (by decide)
  exact ⟨by decide, by decide, h.1, h.2⟩

/-- C9: `blankLines` always equals `linesOfCode − codeLines − commentLines`; a
non-empty line whose trimmed text starts with `*` (but not `//` or `/*`) is
counted in both `codeLines` and `commentLines`, so `blankLines` can go
negative (it is −1 for the one-line input `"* x"`). -/
theorem claim9_blank_lines :
    (∀ (code : String) (ast : Option Js) (language : String)
        (vulns : List Vulnerability) (smells : List CodeSmell),
      (calculateAllMetrics code ast language vulns smells).blankLines =
        ((calculateAllMetrics code ast language vulns smells).linesOfCode : ℤ) -
        ((calculateAllMetrics code ast language vulns smells).codeLines : ℤ) -
        ((calculateAllMetrics code ast language vulns smells).commentLines : ℤ)) ∧
    isCodeLine ("* x".data) = true ∧ isCommentLine ("* x".data) = true ∧
    (calculateAllMetrics "* x" none "javascript" [] []).blankLines = -1 :=
  ⟨fun _ _ _ _ _ => rfl, by decide, by decide, by decide⟩

/-- C10 counterexample: the severity `"toString"` is outside the weight table,
yet it does not contribute 1 hour: the bracket lookup finds the inherited
`Object.prototype.toString` (truthy), the `|| 1` fallback never applies, and
the debt is corrupted to NaN instead of gaining 1 hour over the previous 0. -/
theorem claim10_counterexample :
    vulnerabilityWeight "toString" = none ∧
    calculateTechnicalDebt ⟨1, some 0, 60⟩ [] [] = some 0 ∧
    calculateTechnicalDebt ⟨1, some 0, 60⟩ [Vulnerability.mk "toString"] [] = none ∧
    calculateTechnicalDebt ⟨1, some 0, 60⟩ [Vulnerability.mk "toString"] [] ≠ some 1 := by
  refine ⟨by decide, ?_, by decide, by decide⟩
  simp only [calculateTechnicalDebt, List.map_nil, sumWeights]
  rw [if_neg (by norm_num : ¬(20:ℚ) < 1), if_neg (by norm_num : ¬(10:ℚ) < 0),
      if_neg (by norm_num : ¬(60:ℚ) < 50)]
  norm_num [jsRound2_zero]

/-- C10 amended: a vulnerability whose severity is neither a weight-table key
nor an `Object.prototype` member name contributes exactly 1 hour, and such a
code smell exactly 0.5 hours (a NaN debt stays NaN); a severity naming an
`Object.prototype` member corrupts the debt to NaN instead. -/
theorem claim10_unknown_severities (m : TDMetrics) (vulns : List Vulnerability)
    (smells : List CodeSmell) (v : Vulnerability) (s : CodeSmell)
    (hv : v.severity ∉ (["Critical", "High", "Medium", "Low"] : List String))
    (hv2 : v.severity ∉ objectPrototypeKeys)
    (hs : s.severity ∉ (["High", "Medium", "Low"] : List String))
    (hs2 : s.severity ∉ objectPrototypeKeys) :
    calculateTechnicalDebt m (v :: vulns) smells =
      (calculateTechnicalDebt m vulns smells).map (fun q => q + 1) ∧
    calculateTechnicalDebt m vulns (s :: smells) =
      (calculateTechnicalDebt m vulns smells).map (fun q => q + 1/2) := by
  simp only [List.mem_cons, List.not_mem_nil, or_false, not_or] at hv hs
  obtain ⟨hv1, hv3, hv4, hv5⟩ := hv
  obtain ⟨hs1, hs3, hs4⟩ := hs
  have hwv : vulnerabilityWeight v.severity = some 1 := by
    simp only [vulnerabilityWeight, if_neg hv1, if_neg hv3, if_neg hv4, if_neg hv5, if_neg hv2]
  have hws : smellWeight s.severity = some (1/2) := by
    simp only [smellWeight, if_neg hs1, if_neg hs3, if_neg hs4, if_neg hs2]
  constructor
  · simp only [calculateTechnicalDebt, List.map_cons, sumWeights, hwv]
    rcases hA : sumWeights (vulns.map fun w => vulnerabilityWeight w.severity) with _ | q
    · rw [hA]
      simp
    · rw [hA]
      rcases hB : sumWeights (smells.map fun w => smellWeight w.severity) with _ | r
      · rw [hB]
        simp
      · rw [hB]
        simp only [Option.map_some']
        congr 1
        rw [show ∀ a b c d e : ℚ, a + b + c + (1 + d) + e = (a + b + c + d + e) + 1 from
          by intros; ring]
        exact jsRound2_add_one _
  · simp only [calculateTechnicalDebt, List.map_cons, sumWeights, hws]
    rcases hA : sumWeights (vulns.map fun w => vulnerabilityWeight w.severity) with _ | q
    · rw [hA]
      simp
    · rw [hA]
      rcases hB : sumWeights (smells.map fun w => smellWeight w.severity) with _ | r
      · rw [hB]
        simp
      · rw [hB]
        simp only [Option.map_some']
        congr 1
        rw [show ∀ a b c d e : ℚ, a + b + c + d + (1/2 + e) = (a + b + c + d + e) + 1/2 from
          by intros; ring]
        exact jsRound2_add_half _

/-- Witness for C10's amended statement with the severity `"Unknown"`. -/
theorem claim10_witness :
    (("Unknown" : String) ∉ (["Critical", "High", "Medium", "Low"] : List String)) ∧
    (("Unknown" : String) ∉ objectPrototypeKeys) ∧
    (("Unknown" : String) ∉ (["High", "Medium", "Low"] : List String)) ∧
    calculateTechnicalDebt ⟨1, none, 100⟩ [Vulnerability.mk "Unknown"] [] =
      (calculateTechnicalDebt ⟨1, none, 100⟩ [] []).map (fun q => q + 1) ∧
    calculateTechnicalDebt ⟨1, none, 100⟩ [] [CodeSmell.mk "Unknown"] =
      (calculateTechnicalDebt ⟨1, none, 100⟩ [] []).map (fun q => q + 1/2) := by
  have h := claim10_unknown_severities ⟨1, none, 100⟩ [] [] ⟨"Unknown"⟩ ⟨"Unknown"⟩
    (by decide) (by decide) (by decide) (by decide)
  exact ⟨by decide, by decide, by decide, h.1, h.2⟩

/-- C7 counterexample: adding a vulnerability whose severity names the
inherited `Object.prototype.toString` corrupts the numeric debt 0 to NaN, and
under JavaScript comparison NaN is not ≥ the previous value, so the estimate
does not "never decrease" when an element is added. -/
theorem claim7_counterexample :
    calculateTechnicalDebt ⟨1, some 0, 60⟩ [] [] = some 0 ∧
    calculateTechnicalDebt ⟨1, some 0, 60⟩ [Vulnerability.mk "toString"] [] = none ∧
    ¬ jsNumLe (calculateTechnicalDebt ⟨1, some 0, 60⟩ [] [])
      (calculateTechnicalDebt ⟨1, some 0, 60⟩ [Vulnerability.mk "toString"] []) := by
  have h1 : calculateTechnicalDebt ⟨1, some 0, 60⟩ [] [] = some 0 := by
    simp only [calculateTechnicalDebt, List.map_nil, sumWeights]
    rw [if_neg (by norm_num : ¬(20:ℚ) < 1), if_neg (by norm_num : ¬(10:ℚ) < 0),
        if_neg (by norm_num : ¬(60:ℚ) < 50)]
    norm_num [jsRound2_zero]
  have h2 : calculateTechnicalDebt ⟨1, some 0, 60⟩ [Vulnerability.mk "toString"] [] = none := by
    decide
  refine ⟨h1, h2, ?_⟩
  rw [h1, h2]
  simp [jsNumLe]

/-- C7 amended: as long as every severity avoids `Object.prototype` member
names (so the debt stays a number), `calculateTechnicalDebt` is monotone in
each input separately, and adding such a vulnerability or code smell never
decreases the estimate; adding one whose severity names an `Object.prototype`
member corrupts the debt to NaN instead. -/
theorem claim7_debt_monotone (cc ccB dp dpB mi miB : ℚ) (vulns : List Vulnerability)
    (smells : List CodeSmell) (v : Vulnerability) (s : CodeSmell)
    (hvs : ∀ w ∈ vulns, w.severity ∉ objectPrototypeKeys)
    (hss : ∀ w ∈ smells, w.severity ∉ objectPrototypeKeys)
    (hv : v.severity ∉ objectPrototypeKeys) (hs : s.severity ∉ objectPrototypeKeys) :
    (cc ≤ ccB →
      jsNumLe (calculateTechnicalDebt ⟨cc, some dp, mi⟩ vulns smells)
        (calculateTechnicalDebt ⟨ccB, some dp, mi⟩ vulns smells)) ∧
    (dp ≤ dpB →
      jsNumLe (calculateTechnicalDebt ⟨cc, some dp, mi⟩ vulns smells)
        (calculateTechnicalDebt ⟨cc, some dpB, mi⟩ vulns smells)) ∧
    (mi ≤ miB →
      jsNumLe (calculateTechnicalDebt ⟨cc, some dp, miB⟩ vulns smells)
        (calculateTechnicalDebt ⟨cc, some dp, mi⟩ vulns smells)) ∧
    jsNumLe (calculateTechnicalDebt ⟨cc, some dp, mi⟩ vulns smells)
      (calculateTechnicalDebt ⟨cc, some dp, mi⟩ (v :: vulns) smells) ∧
    jsNumLe (calculateTechnicalDebt ⟨cc, some dp, mi⟩ vulns smells)
      (calculateTechnicalDebt ⟨cc, some dp, mi⟩ vulns (s :: smells)) := by
  obtain ⟨sv, hsv, hsv0⟩ := sumWeights_vuln_clean vulns hvs
  obtain ⟨sm, hsm, hsm0⟩ := sumWeights_smell_clean smells hss
  obtain ⟨wv, hwv, hwv0⟩ := vulnerabilityWeight_clean v.severity hv
  obtain ⟨ws, hws, hws0⟩ := smellWeight_clean s.severity hs
  refine ⟨fun h => ?_, fun h => ?_, fun h => ?_, ?_, ?_⟩
  · simp only [calculateTechnicalDebt, hsv, hsm, jsNumLe]
    apply jsRound2_le_jsRound2
    have h1 : (if 20 < cc then (cc - 20) * (1/2) else 0) ≤
        (if 20 < ccB then (ccB - 20) * (1/2) else 0) := by
      split_ifs <;> linarith
    linarith
  · simp only [calculateTechnicalDebt, hsv, hsm, jsNumLe]
    apply jsRound2_le_jsRound2
    have h1 : (if 10 < dp then (dp - 10) * (3/10) else 0) ≤
        (if 10 < dpB then (dpB - 10) * (3/10) else 0) := by
      split_ifs <;> linarith
    linarith
  · simp only [calculateTechnicalDebt, hsv, hsm, jsNumLe]
    apply jsRound2_le_jsRound2
    have h1 : (if miB < 50 then (50 - miB) * (1/5) else 0) ≤
        (if mi < 50 then (50 - mi) * (1/5) else 0) := by
      split_ifs <;> linarith
    linarith
  · simp only [calculateTechnicalDebt, List.map_cons, sumWeights, hsv, hsm, hwv, jsNumLe]
    apply jsRound2_le_jsRound2
    linarith
  · simp only [calculateTechnicalDebt, List.map_cons, sumWeights, hsv, hsm, hws, jsNumLe]
    apply jsRound2_le_jsRound2
    linarith

/-- Witness for C7's amended statement at concrete inputs. -/
theorem claim7_witness :
    ((1:ℚ) ≤ 2) ∧ ((0:ℚ) ≤ 5) ∧ ((60:ℚ) ≤ 70) ∧
    jsNumLe (calculateTechnicalDebt ⟨1, some 0, 60⟩ [] [])
      (calculateTechnicalDebt ⟨2, some 0, 60⟩ [] []) ∧
    jsNumLe (calculateTechnicalDebt ⟨1, some 0, 60⟩ [] [])
      (calculateTechnicalDebt ⟨1, some 5, 60⟩ [] []) ∧
    jsNumLe (calculateTechnicalDebt ⟨1, some 0, 70⟩ [] [])
      (calculateTechnicalDebt ⟨1, some 0, 60⟩ [] []) ∧
    jsNumLe (calculateTechnicalDebt ⟨1, some 0, 60⟩ [] [])
      (calculateTechnicalDebt ⟨1, some 0, 60⟩ [Vulnerability.mk "Low"] []) ∧
    jsNumLe (calculateTechnicalDebt ⟨1, some 0, 60⟩ [] [])
      (calculateTechnicalDebt ⟨1, some 0, 60⟩ [] [CodeSmell.mk "Low"]) := by
  have h := claim7_debt_monotone 1 2 0 5 60 70 [] [] ⟨"Low"⟩ ⟨"Low"⟩
    (by simp) (by simp) (by decide) (by decide)
  exact ⟨by norm_num, by norm_num, by norm_num, h.1 (by norm_num), h.2.1 (by norm_num),
    h.2.2.1 (by norm_num), h.2.2.2.1, h.2.2.2.2⟩

/-- Helper: concrete duplication percentage of seven identical lines. -/
theorem dup_code7_percentage :
    (detectDuplication code7).duplicationPercentage = some (7143/50) := by
  rw [detectDuplication_percentage code7 (by decide)]
  rw [show (detectDuplication code7).totalDuplicatedLines = 10 from by decide]
  rw [show (dupLines code7).length = 7 from by decide]
  have hfl : ⌊((((10:ℕ):ℚ) / ((7:ℕ):ℚ)) * 100) * 100 + 1/2⌋ = (14286:ℤ) := by
    rw [Int.floor_eq_iff]
    constructor <;> norm_num
  simp only [jsRound2, jsRound, hfl]
  norm_num

/-- C2 counterexample: for seven identical non-blank lines the reported
duplication percentage is 142.86, outside [0,100] (no clamping exists). -/
theorem claim2_counterexample :
    (detectDuplication code7).duplicationPercentage = some (7143/50) ∧
    ¬((7143/50 : ℚ) ≤ 100) :=
  ⟨dup_code7_percentage, by norm_num⟩

/-- C2 amended: when there is at least one non-blank line, the percentage is
`totalDuplicatedLines / nonBlankLineCount · 100` rounded to two decimals; it is
nonnegative but not clamped above (and it is NaN when there is no non-blank
line). -/
theorem claim2_amended (code : String) (h : (dupLines code).length ≠ 0) :
    (detectDuplication code).duplicationPercentage =
      some (jsRound2 ((((detectDuplication code).totalDuplicatedLines : ℚ) /
        ((dupLines code).length : ℚ)) * 100)) ∧
    (0:ℚ) ≤ jsRound2 ((((detectDuplication code).totalDuplicatedLines : ℚ) /
        ((dupLines code).length : ℚ)) * 100) :=
  ⟨detectDuplication_percentage code h, jsRound2_nonneg (by positivity)⟩

/-- Witness for C2's amended statement at the seven-line input. -/
theorem claim2_witness :
    (dupLines code7).length ≠ 0 ∧
    ((detectDuplication code7).duplicationPercentage =
      some (jsRound2 ((((detectDuplication code7).totalDuplicatedLines : ℚ) /
        ((dupLines code7).length : ℚ)) * 100)) ∧
    (0:ℚ) ≤ jsRound2 ((((detectDuplication code7).totalDuplicatedLines : ℚ) /
        ((dupLines code7).length : ℚ)) * 100)) :=
  ⟨by decide, claim2_amended code7 (by decide)⟩

/-- Helper: concrete duplication percentage of `code3`. -/
theorem dup_code3_percentage :
    (detectDuplication code3).duplicationPercentage = some (12381/50) := by
  rw [detectDuplication_percentage code3 (by decide)]
  rw [show (detectDuplication code3).totalDuplicatedLines = 52 from by decide]
  rw [show (dupLines code3).length = 21 from by decide]
  have hfl : ⌊((((52:ℕ):ℚ) / ((21:ℕ):ℚ)) * 100) * 100 + 1/2⌋ = (24762:ℤ) := by
    rw [Int.floor_eq_iff]
    constructor <;> norm_num
  simp only [jsRound2, jsRound, hfl]
  norm_num

/-- C3 counterexample: for two identical 10-line blocks separated by one unique
line the detector records eight blocks, not one, and the percentage is 247.62,
not about 47.62. -/
theorem claim3_counterexample :
    (detectDuplication code3).duplicates.length = 8 ∧
    (detectDuplication code3).duplicationPercentage = some (12381/50) :=
  ⟨by decide, dup_code3_percentage⟩

/-- C3 amended: the eight recorded blocks are the overlapping suffix matches of
lengths 10 down to 3; exactly one has `lineCount = 10`; the double-counted
total is 52, so the percentage is `round2(5200/21) = 247.62`. -/
theorem claim3_amended :
    ((detectDuplication code3).duplicates.map (fun d => d.length) =
      [10, 9, 8, 7, 6, 5, 4, 3]) ∧
    (((detectDuplication code3).duplicates.filter
      (fun d => decide (d.length = 10))).length = 1) ∧
    ((detectDuplication code3).totalDuplicatedLines = 52) ∧
    ((detectDuplication code3).duplicationPercentage = some (12381/50)) :=
  ⟨by decide, by decide, by decide, dup_code3_percentage⟩

theorem jsRoundR_clamp_of_ge (x : ℝ) (h : (100:ℝ) ≤ x) :
    jsRoundR (max 0 (min 100 x)) = 100 := by
  rw [min_eq_left h, max_eq_right (by norm_num : (0:ℝ) ≤ 100)]
  unfold jsRoundR
  rw [Int.floor_eq_iff]
  constructor <;> norm_num

theorem jsRoundR_clamp_ge_50 (x : ℝ) (h : (50:ℝ) ≤ x) :
    (50:ℤ) ≤ jsRoundR (max 0 (min 100 x)) := by
  unfold jsRoundR
  have h1 : (50:ℝ) ≤ min 100 x := le_min (by norm_num) h
  have h2 : (50:ℝ) ≤ max 0 (min 100 x) := le_trans h1 (le_max_right _ _)
  exact Int.le_floor.mpr (by push_cast; linarith)

/-- Helper: the maintainability index of complexity 1, volume 0, 0 code lines
is exactly 100 (the pre-clamp value is 170.77). -/
theorem mi_one_zero_zero : calculateMaintainabilityIndex 1 0 0 = 100 := by
  simp only [calculateMaintainabilityIndex]
  norm_num [Real.log_one]
  unfold jsRoundR
  rw [Int.floor_eq_iff]
  constructor <;> norm_num

/-- Helper: the maintainability index of complexity 1, volume 0, 7 code lines
is at least 50 (the pre-clamp value is 170.77 − 16.2·ln 7 ≥ 73). -/
theorem mi_one_zero_seven_ge : (50:ℤ) ≤ calculateMaintainabilityIndex 1 0 7 := by
  have hlog : Real.log (7:ℝ) ≤ 6 := by
    have h := Real.log_le_sub_one_of_pos (show (0:ℝ) < 7 by norm_num)
    linarith
  simp only [calculateMaintainabilityIndex]
  norm_num [Real.log_one]
  apply jsRoundR_clamp_ge_50
  linarith

/-- C6: for complexity ≥ 1 and nonnegative volume and line count (all the values
the program produces), `calculateMaintainabilityIndex` equals the clamped and
rounded formula `171 − 5.2·ln(max(volume,1)) − 0.23·cc − 16.2·ln(max(loc,1))`
and always lies in [0,100]. -/
theorem claim6_maintainability_range (cc hv loc : ℤ)
    (hcc : 1 ≤ cc) (hhv : 0 ≤ hv) (hloc : 0 ≤ loc) :
    calculateMaintainabilityIndex cc hv loc =
      jsRoundR (max 0 (min 100 (171 - 5.2 * Real.log ((max hv 1 : ℤ) : ℝ) -
        0.23 * (cc : ℝ) - 16.2 * Real.log ((max loc 1 : ℤ) : ℝ)))) ∧
    0 ≤ calculateMaintainabilityIndex cc hv loc ∧
    calculateMaintainabilityIndex cc hv loc ≤ 100 := by
  have hHV : (if hv = 0 then (1:ℤ) else hv) = max hv 1 := by
    rcases eq_or_ne hv 0 with h | h
    · subst h; decide
    · rw [if_neg h, max_eq_left (by omega)]
  have hLOC : (if loc = 0 then (1:ℤ) else loc) = max loc 1 := by
    rcases eq_or_ne loc 0 with h | h
    · subst h; decide
    · rw [if_neg h, max_eq_left (by omega)]
  have hCC : (if cc = 0 then (1:ℤ) else cc) = cc := if_neg (by omega)
  refine ⟨?_, ?_, ?_⟩
  · simp only [calculateMaintainabilityIndex, hHV, hLOC, hCC]
  · simp only [calculateMaintainabilityIndex]
    exact jsRoundR_clamp_nonneg _
  · simp only [calculateMaintainabilityIndex]
    exact jsRoundR_clamp_le _

/-- Witness for C6 at complexity 1, volume 0, 0 code lines. -/
theorem claim6_witness :
    ((1:ℤ) ≤ 1 ∧ (0:ℤ) ≤ 0) ∧
    (0 ≤ calculateMaintainabilityIndex 1 0 0 ∧ calculateMaintainabilityIndex 1 0 0 ≤ 100) := by
  have h := claim6_maintainability_range 1 0 0 (by norm_num) (by norm_num) (by norm_num)
  exact ⟨⟨le_refl _, le_refl _⟩, h.2.1, h.2.2⟩

/-- C1 counterexample: on the empty string no exception is raised, but the
quality score is NaN (modelled `none`), not 50, because the duplication
percentage divides by the non-blank line count 0. -/
theorem claim1_counterexample :
    (calculateAllMetrics "" none "javascript" [] []).qualityScore = none ∧
    (calculateAllMetrics "" none "javascript" [] []).qualityScore ≠ some 50 :=
  ⟨by decide, by decide⟩

/-- C1 amended: for the empty string, `calculateAllMetrics` returns
cyclomatic complexity 1 and maintainability index 100 (≤ 100) without raising,
but the duplication percentage and the quality score are NaN (not 50): the
duplication denominator is the unclamped non-blank line count 0. -/
theorem claim1_amended :
    (calculateAllMetrics "" none "javascript" [] []).cyclomaticComplexity = 1 ∧
    (calculateAllMetrics "" none "javascript" [] []).maintainabilityIndex = 100 ∧
    (calculateAllMetrics "" none "javascript" [] []).duplication.percentage = none ∧
    (calculateAllMetrics "" none "javascript" [] []).qualityScore = none := by
  have hop : allOperatorMatches "" = [] := by decide
  have hod : allOperandMatches "" = [] := by decide
  have hvol : (calculateHalsteadMetrics "").volume = 0 := (halsteadDegenerate "" hop hod).1
  refine ⟨rfl, ?_, by decide, by decide⟩
  simp only [calculateAllMetrics]
  rw [hvol]
  rw [show ((splitNL (String.data "")).filter isCodeLine).length = 0 from by decide]
  norm_num
  exact mi_one_zero_zero

/-- Helper: Halstead volume of the seven-identical-line input is 0 (a single
distinct operand, no operators, so the log2 argument is 1). -/
theorem halstead_code7_volume : (calculateHalsteadMetrics code7).volume = 0 := by
  simp only [calculateHalsteadMetrics]
  rw [show (allOperatorMatches code7).eraseDups.length = 0 from by decide]
  rw [show (allOperandMatches code7).eraseDups.length = 1 from by decide]
  rw [show (allOperatorMatches code7).length = 0 from by decide]
  rw [show (allOperandMatches code7).length = 7 from by decide]
  norm_num [Real.logb_one, jsRoundR_zero]

/-- C4: the technical-debt field never receives a duplication contribution:
`calculateTechnicalDebt` reads `metrics.duplicationPercentage`, but
`calculateAllMetrics` stores the value at `metrics.duplication.percentage`, so
even with 142.86% duplication the debt is 0 instead of the claimed
`0.3·(142.86−10)`. -/
theorem claim4_debt_bug :
    (calculateAllMetrics code7 none "javascript" [] []).duplication.percentage =
      some (7143/50) ∧
    (10:ℚ) < 7143/50 ∧
    (calculateAllMetrics code7 none "javascript" [] []).technicalDebt = some 0 := by
  refine ⟨?_, by norm_num, ?_⟩
  · show (detectDuplication code7).duplicationPercentage = some (7143/50)
    exact dup_code7_percentage
  · simp only [calculateAllMetrics]
    rw [halstead_code7_volume]
    rw [show ((splitNL (String.data code7)).filter isCodeLine).length = 7 from by decide]
    norm_num
    have hMI : (50:ℤ) ≤ calculateMaintainabilityIndex 1 0 7 := mi_one_zero_seven_ge
    have hMIq : (50:ℚ) ≤ ((calculateMaintainabilityIndex 1 0 7 : ℤ) : ℚ) := by
      exact_mod_cast hMI
    simp only [calculateTechnicalDebt, List.map_nil, sumWeights]
    rw [if_neg (by norm_num : ¬(20:ℚ) < 1), if_neg (not_lt.mpr hMIq)]
    norm_num [jsRound2_zero]
